import Mathlib

/-!
Shallow embedding of the core of the `ai-web-searcher` repository:
the action parser and scratchpad accumulator (`web_searcher/agents/nodes.py`,
`web_searcher/agents/edge.py`), the session registry
(`web_searcher/session.py`), and the query-execution loop
(`web_searcher/api/routes.py`).

Python strings are modelled as `List Char`; Python string methods
(`strip`, `split`, `startswith`, membership) are re-implemented below with
Python's semantics.  Wall-clock time is modelled as an explicit `Int`
parameter measured in minutes (the unit of `timeout_minutes`).
-/

namespace WebSearcher

/-- Character list of a string literal, used to write Python strings. -/
def chars (s : String) : List Char := s.data

/-- Python `str.strip()` whitespace set: space, tab, newline, carriage
return, vertical tab, form feed. -/
def pyIsSpace (c : Char) : Bool :=
  c = ' ' || c = '\t' || c = '\n' || c = '\r' || c = '\x0b' || c = '\x0c'

/-- Python `str.strip(set)`: remove every leading and trailing character
satisfying `p`. -/
def stripChars (p : Char → Bool) (l : List Char) : List Char :=
  ((l.dropWhile p).reverse.dropWhile p).reverse

/-- Python `str.strip()` with no argument. -/
def pyStrip (l : List Char) : List Char := stripChars pyIsSpace l

/-- Python `str.split(sep)` for a one-character separator: `n` separators
produce `n + 1` (possibly empty) parts; the empty string yields `[[]]`. -/
def splitOnChar (sep : Char) : List Char → List (List Char)
  | [] => [[]]
  | c :: rest =>
    match splitOnChar sep rest, decide (c = sep) with
    | r, true => [] :: r
    | [], false => [[c]]
    | h :: t, false => (c :: h) :: t

/-- Python `str.split(sep, 1)` for a one-character separator: `none` when
the separator is absent, otherwise the parts left and right of its first
occurrence. -/
def splitOnceChar (sep : Char) : List Char → Option (List Char × List Char)
  | [] => none
  | c :: rest =>
    if c = sep then some ([], rest)
    else
      match splitOnceChar sep rest with
      | none => none
      | some (a, b) => some (c :: a, b)

/-- Python `str.startswith`: the first argument is the candidate marker. -/
def startsWithL : List Char → List Char → Bool
  | [], _ => true
  | _ :: _, [] => false
  | a :: as, b :: bs => a = b && startsWithL as bs

/-- Python `needle in haystack` substring test. -/
def subStrL (needle : List Char) : List Char → Bool
  | [] => needle.isEmpty
  | c :: rest => startsWithL needle (c :: rest) || subStrL needle rest

/-- The character set of Python `strip("[]")`. -/
def isBracketChar (c : Char) : Bool := c = '[' || c = ']'

/-- Argument payload of the dict returned by `parse` in
`web_searcher/agents/nodes.py`: `None`, a list of strings (tool-call
arguments), or a single string (the retry diagnostic). -/
inductive ArgsVal where
  | null : ArgsVal
  | list : List (List Char) → ArgsVal
  | str : List Char → ArgsVal
deriving DecidableEq

/-- The dict `{"action": ..., "args": ...}` returned by `parse`. -/
structure PredDict where
  action : List Char
  args : ArgsVal
deriving DecidableEq

/-- The literal `action_prefix` marker of `parse`. -/
def actionMarker : List Char := chars "Action: "

/-- The fixed text prepended to the retry diagnostic in `parse`. -/
def retryMsg : List Char := chars "Could not parse LLM Output: "

/-- Embedding of `parse` from `web_searcher/agents/nodes.py` (lines 48-66):
take the last line of the stripped text; without the `"Action: "` marker
return the retry dict carrying the original text; otherwise drop the
marker, split at the first space into name and optional remainder, and
split the remainder on `";"`, stripping each piece of whitespace and of
leading/trailing `[` `]` characters. -/
def parse (text : List Char) : PredDict :=
  let lastLine := (splitOnChar '\n' (pyStrip text)).getLastD []
  if startsWithL actionMarker lastLine then
    let actionStr := lastLine.drop actionMarker.length
    match splitOnceChar ' ' actionStr with
    | none => { action := pyStrip actionStr, args := ArgsVal.null }
    | some (a, rest) =>
      { action := pyStrip a,
        args := ArgsVal.list ((splitOnChar ';' (pyStrip rest)).map
          (fun p => stripChars isBracketChar (pyStrip p))) }
  else
    { action := chars "retry", args := ArgsVal.str (retryMsg ++ text) }

/-- Decimal rendering of a natural number, as a character list. -/
def natChars (n : Nat) : List Char := (Nat.repr n).data

/-- Python `txt.rsplit("\n", 1)[-1]`: the part after the last newline (the
whole text when it has no newline). -/
def lastAfterNewline (l : List Char) : List Char :=
  (splitOnChar '\n' l).getLastD []

/-- Numeric value of a list of decimal digits. -/
def digitsToNat (ds : List Char) : Nat :=
  ds.foldl (fun n c => n * 10 + (c.toNat - 48)) 0

/-- Python `int(re.match(r"\d+", l).group())`: the integer denoted by the
maximal leading digit run, or `none` when the text does not start with a
digit (in which case `re.match` returns `None` and the source raises). -/
def leadingNat (l : List Char) : Option Nat :=
  let ds := l.takeWhile Char.isDigit
  if ds.isEmpty then none else some (digitsToNat ds)

/-- The fixed scratchpad header of `update_scratchpad`. -/
def scratchpadHeader : List Char := chars "Previous action observations:\n"

/-- Embedding of `update_scratchpad` from `web_searcher/agents/edge.py`
(lines 17-28).  The scratchpad is the list of message texts
(`old[0].content` is the head); the result is the new one-message
scratchpad, or `none` when the source raises because the last line of the
previous text does not begin with a digit. -/
def update_scratchpad (scratchpad : List (List Char)) (observation : List Char) :
    Option (List (List Char)) :=
  match scratchpad with
  | [] =>
    some [scratchpadHeader ++ chars "\n" ++ natChars 1 ++ chars ". " ++ observation]
  | txt :: _ =>
    match leadingNat (lastAfterNewline txt) with
    | none => none
    | some n =>
      some [txt ++ chars "\n" ++ natChars (n + 1) ++ chars ". " ++ observation]

/-- Embedding of the `SessionInfo` dataclass from `web_searcher/session.py`
(lines 17-31).  The opaque `page` and `graph` handles (external Playwright
and LangGraph objects) are not modelled; timestamps are `Int` minutes. -/
structure SessionInfo where
  session_id : String
  status : String := "active"
  current_query : Option String := none
  result : Option String := none
  error : Option String := none
  current_step : Option Nat := none
  current_action : Option String := none
  created_at : Int := 0
  last_accessed : Int := 0
  timeout_minutes : Int := 30
deriving DecidableEq

/-- Embedding of `SessionInfo.is_expired`: `now - last_accessed >
timedelta(minutes=timeout_minutes)`, with time measured in minutes. -/
def is_expired (now : Int) (s : SessionInfo) : Bool :=
  now - s.last_accessed > s.timeout_minutes

/-- The mutable dict `self._sessions` of `SessionManager`, as an
association list keyed by session id. -/
abbrev Registry := List (String × SessionInfo)

/-- Dict membership plus indexing: the session stored under `sid`. -/
def lookup : Registry → String → Option SessionInfo
  | [], _ => none
  | (k, v) :: rest, sid => if k = sid then some v else lookup rest sid

/-- Dict assignment `self._sessions[sid] = s` for a present key. -/
def setEntry : Registry → String → SessionInfo → Registry
  | [], _, _ => []
  | (k, v) :: rest, sid, s =>
    if k = sid then (k, s) :: rest else (k, v) :: setEntry rest sid s

/-- Dict deletion `del self._sessions[sid]` (dict keys are unique, so
removing every occurrence of the key is the same operation). -/
def removeEntry : Registry → String → Registry
  | [], _ => []
  | (k, v) :: rest, sid =>
    if k = sid then removeEntry rest sid else (k, v) :: removeEntry rest sid

/-- Result of `SessionManager.get_session`: the returned session, or the
`HTTPException` it raises. -/
inductive GetOutcome where
  | ok (session : SessionInfo)
  | httpError (status_code : Nat) (detail : String)
deriving DecidableEq

/-- Full effect of one `get_session` call: outcome, registry afterwards,
and the session ids whose cleanup was scheduled with
`asyncio.create_task` (ran later by the event loop, not synchronously). -/
structure GetResult where
  outcome : GetOutcome
  sessions : Registry
  scheduled : List String
deriving DecidableEq

/-- Embedding of `SessionManager.get_session` (`web_searcher/session.py`
lines 86-101): absent id raises 404 "Session not found"; an expired
session schedules `_cleanup_session` asynchronously and raises 404
"Session expired" with the registry not yet modified; otherwise
`update_last_accessed` mutates the stored record and it is returned. -/
def get_session (sessions : Registry) (now : Int) (session_id : String) : GetResult :=
  match lookup sessions session_id with
  | none => ⟨GetOutcome.httpError 404 "Session not found", sessions, []⟩
  | some s =>
    if is_expired now s then
      ⟨GetOutcome.httpError 404 "Session expired", sessions, [session_id]⟩
    else
      let s' := { s with last_accessed := now }
      ⟨GetOutcome.ok s', setEntry sessions session_id s', []⟩

/-- Embedding of `SessionManager.close_session` (lines 103-122): `false`
if absent, otherwise the page is closed (external, not modelled) and the
entry deleted. -/
def close_session (sessions : Registry) (session_id : String) : Bool × Registry :=
  match lookup sessions session_id with
  | none => (false, sessions)
  | some _ => (true, removeEntry sessions session_id)

/-- Embedding of `SessionManager._cleanup_session` (lines 124-129): run
`close_session`, discarding its result and swallowing errors. -/
def cleanup_session (sessions : Registry) (session_id : String) : Registry :=
  (close_session sessions session_id).2

/-- The `Prediction` TypedDict of `web_searcher/models/schemas.py` as read
by `process_query`: both keys are fetched with `.get`, so either may be
absent (`pred.get("action")`, `pred.get("args")`).  `⟨none, none⟩` is the
empty dict produced by `pred or {}`. -/
structure Prediction where
  action : Option String := none
  args : Option (List String) := none
deriving DecidableEq

/-- One event pulled from `session.graph.astream(...)` by the `async for`
loop in `process_query`: an event without the `"agent"` key (intermediate
graph bookkeeping), an `"agent"` event with an optional `"prediction"`
payload, or a failure raised by the stream itself. -/
inductive StepEvent where
  | other
  | agent (prediction : Option Prediction)
  | raised (msg : String)
deriving DecidableEq

/-- Python `str(x)` for `x : Optional[str]`: `None` renders as "None". -/
def pyShowOptStr : Option String → String
  | none => "None"
  | some s => s

/-- Python `repr` of a string as it appears inside `str(list)`.  Quote
escaping inside the string is not modelled (no claim inspects it). -/
def pyReprStr (s : String) : String := "'" ++ s ++ "'"

/-- Python `str(x)` for `x : Optional[List[str]]`. -/
def pyShowArgs : Option (List String) → String
  | none => "None"
  | some l => "[" ++ String.intercalate ", " (l.map pyReprStr) ++ "]"

/-- The f-string `f"{action}: {action_input}"` of `process_query`. -/
def renderAction (action : Option String) (args : Option (List String)) : String :=
  pyShowOptStr action ++ ": " ++ pyShowArgs args

/-- Python `"ANSWER" in action` substring test. -/
def containsAnswer (action : String) : Bool :=
  subStrL (chars "ANSWER") action.data

/-- Python `action_input[0] if action_input else None`: `None` and the
empty list are both falsy. -/
def firstArg : Option (List String) → Option String
  | some (x :: _) => some x
  | _ => none

/-- Message of `Exception(f"Max steps ({request.max_steps}) exceeded")`. -/
def maxStepsMsg (max_steps : Nat) : String :=
  "Max steps (" ++ toString max_steps ++ ") exceeded"

/-- Message of the `TypeError` raised by `"ANSWER" in action` when
`action` is `None`. -/
def typeErrorMsg : String := "argument of type 'NoneType' is not iterable"

/-- Result of the `async for` loop body of `process_query`: normal loop
exit carrying `final_answer`, or an exception carrying its message; both
carry the session as mutated so far. -/
inductive LoopOutcome where
  | done (s : SessionInfo) (final_answer : Option String)
  | failed (s : SessionInfo) (msg : String)
deriving DecidableEq

/-- Embedding of the `async for event in event_stream` loop of
`process_query` (`web_searcher/api/routes.py` lines 70-88): events without
the `"agent"` key are skipped; otherwise `step_count` is incremented, the
session's `current_step`/`current_action` are updated, an action
containing "ANSWER" breaks with its first argument, and a step count
beyond `max_steps` raises. -/
def runLoop (max_steps : Nat) : SessionInfo → Nat → List StepEvent → LoopOutcome
  | s, _, [] => LoopOutcome.done s none
  | s, step_count, e :: rest =>
    match e with
    | StepEvent.other => runLoop max_steps s step_count rest
    | StepEvent.raised msg => LoopOutcome.failed s msg
    | StepEvent.agent p =>
      let n := step_count + 1
      let pred := p.getD {}
      let s' := { s with current_step := some n,
                         current_action := some (renderAction pred.action pred.args) }
      match pred.action with
      | none => LoopOutcome.failed s' typeErrorMsg
      | some a =>
        if containsAnswer a then LoopOutcome.done s' (firstArg pred.args)
        else if max_steps < n then LoopOutcome.failed s' (maxStepsMsg max_steps)
        else runLoop max_steps s' n rest

/-- Embedding of the whole `process_query` background task, the decision
stream abstracted as the list of events it yields: the `try` block runs
the loop then sets status `completed`; the `except` block sets status
`error` and stores the message. -/
def process_query (s : SessionInfo) (max_steps : Nat) (events : List StepEvent) :
    SessionInfo :=
  match runLoop max_steps s 0 events with
  | LoopOutcome.done s' fa => { s' with status := "completed", result := fa }
  | LoopOutcome.failed s' msg => { s' with status := "error", error := some msg }

/-- The `QueryResponse` schema fields returned by `query_agent`. -/
structure QueryResponse where
  session_id : String
  status : String
  answer : Option String
deriving DecidableEq

/-- Result of the synchronous part of the `query_agent` route: the HTTP
response or propagated `HTTPException`. -/
inductive SubmitOutcome where
  | httpError (status_code : Nat) (detail : String)
  | accepted (resp : QueryResponse)
deriving DecidableEq

/-- Full effect of one `query_agent` call: outcome, registry afterwards,
cleanups scheduled by the embedded `get_session`, and the background
query task (session id, question, max_steps) handed to
`background_tasks.add_task`, if any. -/
structure SubmitResult where
  outcome : SubmitOutcome
  sessions : Registry
  scheduled : List String
  background : Option (String × String × Nat)
deriving DecidableEq

/-- Embedding of the synchronous part of `query_agent`
(`web_searcher/api/routes.py` lines 45-104): look the session up (its
`HTTPException`s propagate), then unconditionally set status
`"processing"`, overwrite `current_query`, clear `result` and `error`
(mutating the stored record), register the `process_query` background
task, and answer with status `"processing"`. -/
def query_agent (sessions : Registry) (now : Int) (session_id question : String)
    (max_steps : Nat) : SubmitResult :=
  let g := get_session sessions now session_id
  match g.outcome with
  | GetOutcome.httpError c d => ⟨SubmitOutcome.httpError c d, g.sessions, g.scheduled, none⟩
  | GetOutcome.ok s =>
    let s' := { s with status := "processing", current_query := some question,
                       result := none, error := none }
    ⟨SubmitOutcome.accepted ⟨session_id, "processing", none⟩,
      setEntry g.sessions session_id s', g.scheduled,
      some (session_id, question, max_steps)⟩

/-- The session carried by a loop outcome (both constructors carry the
session as mutated so far). -/
def loopSession : LoopOutcome → SessionInfo
  | LoopOutcome.done s _ => s
  | LoopOutcome.failed s _ => s

/-- Whether a step event neither terminates nor fails the loop body: it is
a bookkeeping event, or an agent event whose prediction has a proper
action not containing "ANSWER". -/
def isNonTerminating : StepEvent → Bool
  | StepEvent.other => true
  | StepEvent.agent (some p) =>
    match p.action with
    | some a => !(containsAnswer a)
    | none => false
  | _ => false

/-- Number of events carrying the `"agent"` key, i.e. those that increment
`step_count`. -/
def agentCount : List StepEvent → Nat
  | [] => 0
  | StepEvent.agent _ :: rest => agentCount rest + 1
  | _ :: rest => agentCount rest

theorem startsWithL_append_self (p t : List Char) : startsWithL p (p ++ t) = true := by
  induction p with
  | nil => rfl
  | cons c cs ih => simp [startsWithL, ih]

theorem subStrL_nil (l : List Char) : subStrL [] l = true := by
  cases l <;> simp [subStrL, startsWithL, List.isEmpty]

theorem subStrL_append (pre n t : List Char) : subStrL n (pre ++ (n ++ t)) = true := by
  induction pre with
  | nil =>
    simp only [List.nil_append]
    cases n with
    | nil => exact subStrL_nil t
    | cons c cs =>
      show (startsWithL (c :: cs) ((c :: cs) ++ t) || subStrL (c :: cs) (cs ++ t)) = true
      rw [startsWithL_append_self, Bool.true_or]
  | cons c cs ih =>
    show (startsWithL n (c :: (cs ++ (n ++ t))) || subStrL n (cs ++ (n ++ t))) = true
    rw [ih, Bool.or_true]

theorem lookup_setEntry_self (r : Registry) (sid : String) (s : SessionInfo)
    (h : lookup r sid ≠ none) : lookup (setEntry r sid s) sid = some s := by
  induction r with
  | nil => simp [lookup] at h
  | cons kv rest ih =>
    obtain ⟨k, v⟩ := kv
    by_cases hk : k = sid
    · simp [setEntry, lookup, hk]
    · simp only [setEntry, lookup, if_neg hk] at h ⊢
      exact ih h

theorem lookup_setEntry_other (r : Registry) (sid sid' : String) (s : SessionInfo)
    (h : sid' ≠ sid) : lookup (setEntry r sid s) sid' = lookup r sid' := by
  induction r with
  | nil => rfl
  | cons kv rest ih =>
    obtain ⟨k, v⟩ := kv
    by_cases hk : k = sid
    · have h1 : ¬ (k = sid') := fun hc => h (hk ▸ hc.symm)
      simp only [setEntry, if_pos hk, lookup, if_neg h1]
    · simp [setEntry, lookup, hk, ih]

theorem lookup_removeEntry_self (r : Registry) (sid : String) :
    lookup (removeEntry r sid) sid = none := by
  induction r with
  | nil => rfl
  | cons kv rest ih =>
    obtain ⟨k, v⟩ := kv
    by_cases hk : k = sid
    · simp [removeEntry, hk, ih]
    · simp [removeEntry, lookup, hk, ih]

theorem runLoop_skip_all (max_steps : Nat) (s : SessionInfo) (n : Nat)
    (pre evs : List StepEvent) (h : ∀ e ∈ pre, e = StepEvent.other) :
    runLoop max_steps s n (pre ++ evs) = runLoop max_steps s n evs := by
  induction pre with
  | nil => rfl
  | cons e t ih =>
    have he : e = StepEvent.other := h e (List.mem_cons_self e t)
    subst he
    have ht : ∀ e ∈ t, e = StepEvent.other := fun e hm => h e (List.mem_cons_of_mem _ hm)
    simpa [runLoop] using ih ht

theorem runLoop_answer (max_steps : Nat) (s : SessionInfo) (n : Nat)
    (args : Option (List String)) (rest : List StepEvent) :
    runLoop max_steps s n
        (StepEvent.agent (some { action := some "ANSWER", args := args }) :: rest) =
      LoopOutcome.done
        { s with current_step := some (n + 1),
                 current_action := some (renderAction (some "ANSWER") args) }
        (firstArg args) := by
  have h : containsAnswer "ANSWER" = true := by decide
  simp [runLoop, h, Option.getD]

theorem runLoop_preserves_payload (max_steps : Nat) :
    ∀ (evs : List StepEvent) (s : SessionInfo) (n : Nat),
      (loopSession (runLoop max_steps s n evs)).result = s.result ∧
      (loopSession (runLoop max_steps s n evs)).error = s.error ∧
      (loopSession (runLoop max_steps s n evs)).status = s.status := by
  intro evs
  induction evs with
  | nil => intro s n; exact ⟨rfl, rfl, rfl⟩
  | cons e rest ih =>
    intro s n
    match e with
    | StepEvent.other => simpa [runLoop] using ih s n
    | StepEvent.raised msg => exact ⟨rfl, rfl, rfl⟩
    | StepEvent.agent p =>
      simp only [runLoop]
      cases hp : (p.getD {}).action with
      | none => exact ⟨rfl, rfl, rfl⟩
      | some a =>
        by_cases ha : containsAnswer a = true
        · simp [loopSession, ha]
        · by_cases hn : max_steps < n + 1
          · simp [loopSession, ha, hn]
          · simpa [loopSession, ha, hn] using ih _ (n + 1)

theorem runLoop_exceeds (max_steps : Nat) :
    ∀ (events : List StepEvent) (s : SessionInfo) (n : Nat),
      (∀ e ∈ events, isNonTerminating e = true) →
      n ≤ max_steps →
      max_steps < n + agentCount events →
      ∃ s', runLoop max_steps s n events =
        LoopOutcome.failed s' (maxStepsMsg max_steps) := by
  intro events
  induction events with
  | nil =>
    intro s n _ hle hlt
    simp [agentCount] at hlt
    omega
  | cons e rest ih =>
    intro s n hall hle hlt
    have hall' : ∀ e ∈ rest, isNonTerminating e = true :=
      fun x hx => hall x (List.mem_cons_of_mem _ hx)
    have he : isNonTerminating e = true := hall e (List.mem_cons_self e rest)
    match e with
    | StepEvent.other =>
      have : agentCount (StepEvent.other :: rest) = agentCount rest := rfl
      exact ih s n hall' hle (by rw [this] at hlt; exact hlt)
    | StepEvent.raised msg => simp [isNonTerminating] at he
    | StepEvent.agent p =>
      match p with
      | none => simp [isNonTerminating] at he
      | some pp =>
        match hcase : pp.action with
        | none => simp [isNonTerminating, hcase] at he
        | some a =>
          have hna : containsAnswer a = false := by
            simp [isNonTerminating, hcase] at he
            exact he
          have hcount : agentCount (StepEvent.agent (some pp) :: rest) =
              agentCount rest + 1 := rfl
          by_cases hn : max_steps < n + 1
          · refine ⟨{ s with current_step := some (n + 1),
                             current_action := some (renderAction (some a) pp.args) }, ?_⟩
            simp [runLoop, Option.getD, hcase, hna, hn]
          · have hle' : n + 1 ≤ max_steps := by omega
            have hlt' : max_steps < (n + 1) + agentCount rest := by
              rw [hcount] at hlt; omega
            obtain ⟨s', hs'⟩ := ih _ (n + 1) hall' hle' hlt'
            refine ⟨s', ?_⟩
            simp only [runLoop, Option.getD, hcase, hna, hn]
            simpa [hcase, hna, hn] using hs'

/-- C1 (counterexample): the code has no `QueryInProgress` check.  A
session whose status is `"processing"` with in-flight query "q1" accepts a
second submission, which overwrites `current_query` with "q2" — so the
submission neither fails nor leaves the first query's state untouched. -/
theorem C1_counterexample :
    let r := query_agent
      [("s1",
        { session_id := "s1", status := "processing", current_query := some "q1", current_step := some 3 })]
      1 "s1" "q2" 10
    r.outcome = SubmitOutcome.accepted ⟨"s1", "processing", none⟩ ∧
    (lookup r.sessions "s1").map SessionInfo.current_query = some (some "q2") ∧
    (lookup r.sessions "s1").map SessionInfo.current_query ≠ some (some "q1") := by
  decide

/-- C1 (amended): submitting a query to a live session whose status is
`"processing"` is accepted (no `QueryInProgress` rejection exists): the
submission overwrites `current_query`, keeps status `"processing"`, clears
`result`/`error`, touches `last_accessed`, leaves
`current_step`/`current_action` of the in-flight query in place, and
schedules the new background query. -/
theorem C1_amended_submit_overwrites (sessions : Registry) (now : Int)
    (sid question : String) (max_steps : Nat) (s : SessionInfo)
    (hfound : lookup sessions sid = some s) (_hproc : s.status = "processing")
    (hlive : is_expired now s = false) :
    (query_agent sessions now sid question max_steps).outcome =
      SubmitOutcome.accepted ⟨sid, "processing", none⟩ ∧
    lookup (query_agent sessions now sid question max_steps).sessions sid =
      some { s with last_accessed := now, status := "processing",
                    current_query := some question, result := none, error := none } ∧
    (query_agent sessions now sid question max_steps).background =
      some (sid, question, max_steps) := by
  have h1 : lookup sessions sid ≠ none := by
    rw [hfound]; exact fun hc => Option.noConfusion hc
  have h2 := lookup_setEntry_self sessions sid { s with last_accessed := now } h1
  have h3 : lookup (setEntry sessions sid { s with last_accessed := now }) sid ≠ none := by
    rw [h2]; exact fun hc => Option.noConfusion hc
  refine ⟨?_, ?_, ?_⟩ <;>
    simp only [query_agent, get_session, hfound, hlive, Bool.false_eq_true, if_false]
  exact lookup_setEntry_self _ _ _ h3

/-- C1 (witness). -/
theorem C1_witness :
    lookup [("s1", { session_id := "s1", status := "processing" : SessionInfo })] "s1" =
      some { session_id := "s1", status := "processing" } ∧
    (query_agent [("s1", { session_id := "s1", status := "processing" })] 1 "s1" "q2" 10).outcome =
      SubmitOutcome.accepted ⟨"s1", "processing", none⟩ :=
  ⟨by decide,
    (C1_amended_submit_overwrites
      [("s1", { session_id := "s1", status := "processing" })] 1 "s1" "q2" 10
      { session_id := "s1", status := "processing" }
      (by decide) (by decide) (by decide)).1⟩

/-- C2: when the decision stream yields the terminal "ANSWER" action
(after any number of bookkeeping events), the loop stops with status
`"completed"` and result the first element of the argument list
(`firstArg`), which is `none` when the argument list is missing. -/
theorem C2_answer_completes (s : SessionInfo) (max_steps : Nat)
    (pre rest : List StepEvent) (args : Option (List String))
    (hpre : ∀ e ∈ pre, e = StepEvent.other) :
    (process_query s max_steps
        (pre ++ StepEvent.agent (some { action := some "ANSWER", args := args }) :: rest)).status
      = "completed" ∧
    (process_query s max_steps
        (pre ++ StepEvent.agent (some { action := some "ANSWER", args := args }) :: rest)).result
      = firstArg args ∧
    firstArg none = none := by
  unfold process_query
  rw [runLoop_skip_all max_steps s 0 pre _ hpre, runLoop_answer]
  exact ⟨rfl, rfl, rfl⟩

/-- C2 (witness). -/
theorem C2_witness :
    (∀ e ∈ [StepEvent.other], e = StepEvent.other) ∧
    (process_query { session_id := "s1" } 150
        ([StepEvent.other] ++
          StepEvent.agent (some { action := some "ANSWER", args := some ["42"] }) :: [])).status
      = "completed" :=
  ⟨by decide,
    (C2_answer_completes { session_id := "s1" } 150 [StepEvent.other] []
      (some ["42"]) (by decide)).1⟩

/-- C3 (counterexample): a reachable terminal record with NEITHER `result`
nor `error` set.  Submit a query to a fresh session, then let the stream
yield the "ANSWER" action with no argument list: the record completes
with `result = none` and `error = none`, so "exactly one of result and
error is set" fails. -/
theorem C3_counterexample :
    let submitted := query_agent [("s1", { session_id := "s1" })] 0 "s1" "q" 10
    let s := (lookup submitted.sessions "s1").getD { session_id := "" }
    let s' := process_query s 10 [StepEvent.agent (some { action := some "ANSWER" })]
    lookup submitted.sessions "s1" = some s ∧
    s'.status = "completed" ∧
    ¬ ((s'.result = none ∧ s'.error ≠ none) ∨ (s'.result ≠ none ∧ s'.error = none)) := by
  decide

/-- C3 (amended): starting a new query clears both `result` and `error`,
and terminal states set AT MOST one of them: status `"error"` always has
`error` set and `result` null, while status `"completed"` always has
`error` null but may leave `result` null as well (answer without
arguments, or stream exhausted without an answer). -/
theorem C3_amended_terminal_payloads :
    (∀ (sessions : Registry) (now : Int) (sid q : String) (ms : Nat) (s : SessionInfo),
      lookup sessions sid = some s → is_expired now s = false →
      ∃ s', lookup (query_agent sessions now sid q ms).sessions sid = some s' ∧
        s'.result = none ∧ s'.error = none) ∧
    (∀ (s : SessionInfo) (ms : Nat) (events : List StepEvent),
      s.result = none → s.error = none →
      ((process_query s ms events).status = "completed" →
        (process_query s ms events).error = none) ∧
      ((process_query s ms events).status = "error" →
        (process_query s ms events).result = none ∧
        (process_query s ms events).error ≠ none)) := by
  constructor
  · intro sessions now sid q ms s hfound hlive
    have h1 : lookup sessions sid ≠ none := by
      rw [hfound]; exact fun hc => Option.noConfusion hc
    have h2 := lookup_setEntry_self sessions sid { s with last_accessed := now } h1
    have h3 : lookup (setEntry sessions sid { s with last_accessed := now }) sid ≠ none := by
      rw [h2]; exact fun hc => Option.noConfusion hc
    refine ⟨{ s with last_accessed := now, status := "processing", current_query := some q,
                     result := none, error := none }, ?_, rfl, rfl⟩
    simp only [query_agent, get_session, hfound, hlive, Bool.false_eq_true, if_false]
    exact lookup_setEntry_self _ _ _ h3
  · intro s ms events hr he
    have hp := runLoop_preserves_payload ms events s 0
    unfold process_query
    cases hcase : runLoop ms s 0 events with
    | done s' fa =>
      rw [hcase] at hp
      simp only [loopSession] at hp
      refine ⟨fun _ => ?_, fun hst => ?_⟩
      · show s'.error = none
        rw [hp.2.1, he]
      · exact absurd (show ("completed" : String) = "error" from hst) (by decide)
    | failed s' msg =>
      rw [hcase] at hp
      simp only [loopSession] at hp
      refine ⟨fun hst => ?_, fun _ => ⟨?_, ?_⟩⟩
      · exact absurd (show ("error" : String) = "completed" from hst) (by decide)
      · show s'.result = none
        rw [hp.1, hr]
      · exact fun hc => Option.noConfusion hc

/-- C3 (witness). -/
theorem C3_witness :
    lookup [("s1", { session_id := "s1" : SessionInfo })] "s1" =
      some { session_id := "s1" } ∧
    ∃ s', lookup (query_agent [("s1", { session_id := "s1" })] 0 "s1" "q" 10).sessions "s1" =
        some s' ∧ s'.result = none ∧ s'.error = none :=
  ⟨by decide,
    C3_amended_terminal_payloads.1 [("s1", { session_id := "s1" })] 0 "s1" "q" 10
      { session_id := "s1" } (by decide) (by decide)⟩

/-- C4: if every event of the stream is non-terminating (bookkeeping, or a
proper action not containing "ANSWER") and the stream carries more than
`max_steps` agent events, the loop ends with status `"error"` and the
error message `"Max steps (N) exceeded"`, which contains the decimal
rendering of the exceeded bound. -/
theorem C4_max_steps_error (s : SessionInfo) (max_steps : Nat) (events : List StepEvent)
    (hnt : ∀ e ∈ events, isNonTerminating e = true)
    (hcount : max_steps < agentCount events) :
    (process_query s max_steps events).status = "error" ∧
    (process_query s max_steps events).error = some (maxStepsMsg max_steps) ∧
    subStrL (toString max_steps).data (maxStepsMsg max_steps).data = true := by
  obtain ⟨s', hs'⟩ := runLoop_exceeds max_steps events s 0 hnt (Nat.zero_le _) (by omega)
  unfold process_query
  rw [hs']
  refine ⟨rfl, rfl, ?_⟩
  have hdata : (maxStepsMsg max_steps).data =
      chars "Max steps (" ++ ((toString max_steps).data ++ chars ") exceeded") := by
    simp [maxStepsMsg, chars]
  rw [hdata]
  exact subStrL_append _ _ _

/-- C4 (witness). -/
theorem C4_witness :
    (∀ e ∈ List.replicate 3 (StepEvent.agent (some { action := some "Click", args := some ["14"] })),
      isNonTerminating e = true) ∧
    2 < agentCount (List.replicate 3 (StepEvent.agent (some { action := some "Click", args := some ["14"] }))) ∧
    (process_query { session_id := "s1" } 2
        (List.replicate 3 (StepEvent.agent (some { action := some "Click", args := some ["14"] })))).error
      = some (maxStepsMsg 2) :=
  ⟨by decide, by decide,
    (C4_max_steps_error { session_id := "s1" } 2
      (List.replicate 3 (StepEvent.agent (some { action := some "Click", args := some ["14"] })))
      (by decide) (by decide)).2.1⟩

/-- C5: an event without the `"agent"` key is skipped: the loop continues
on the remaining events from the same session state and the same step
count — so nothing is incremented, no progress field is mutated, and the
loop does not terminate on it. -/
theorem C5_skip_bookkeeping (s : SessionInfo) (max_steps step_count : Nat)
    (rest : List StepEvent) :
    runLoop max_steps s step_count (StepEvent.other :: rest) =
      runLoop max_steps s step_count rest ∧
    process_query s max_steps (StepEvent.other :: rest) =
      process_query s max_steps rest :=
  ⟨rfl, rfl⟩

/-- C6 (counterexample): two divergences from the claim.  `strip("[]")`
removes ALL leading/trailing bracket characters, not one enclosing layer:
`"Action: Type [[3]]"` yields argument `"3"`, not `"[3]"`.  And the
remainder is split at the first space only, not at the first whitespace
run: a tab does not split, so `"Action: Type\t3"` yields the single name
`"Type\t3"` with no arguments. -/
theorem C6_counterexample :
    (parse (chars "Action: Type [[3]]") =
      { action := chars "Type", args := ArgsVal.list [chars "3"] } ∧
     chars "3" ≠ chars "[3]") ∧
    (parse (chars "Action: Type\t3") =
      { action := chars "Type\t3", args := ArgsVal.null } ∧
     chars "Type\t3" ≠ chars "Type") := by
  decide

/-- C6 (amended): for input whose stripped last line is `"Action: "`
followed by `rest`, the parser splits `rest` at the first SPACE character
into a whitespace-trimmed name and an optional remainder; with no
remainder args is none, otherwise the remainder is split on `";"` and
each piece is trimmed of surrounding whitespace and of ALL enclosing `[`
`]` characters, order preserved and duplicates kept; the spec's example
`"Action: Type 3; hello world"` still yields `("Type", ["3", "hello
world"])`. -/
theorem C6_amended_toolcall_parse (text rest : List Char)
    (hlast : (splitOnChar '\n' (pyStrip text)).getLastD [] = actionMarker ++ rest) :
    (parse text =
      match splitOnceChar ' ' rest with
      | none => { action := pyStrip rest, args := ArgsVal.null }
      | some (a, b) =>
        { action := pyStrip a,
          args := ArgsVal.list ((splitOnChar ';' (pyStrip b)).map
            (fun p => stripChars isBracketChar (pyStrip p))) }) ∧
    parse (chars "Action: Type 3; hello world") =
      { action := chars "Type", args := ArgsVal.list [chars "3", chars "hello world"] } := by
  constructor
  · simp only [parse, hlast, startsWithL_append_self, if_true, List.drop_left]
  · decide

/-- C6 (witness). -/
theorem C6_witness :
    ((splitOnChar '\n' (pyStrip (chars "Action: Click 14"))).getLastD [] =
      actionMarker ++ chars "Click 14") ∧
    parse (chars "Action: Click 14") =
      { action := chars "Click", args := ArgsVal.list [chars "14"] } := by
  refine ⟨by decide, ?_⟩
  have h := (C6_amended_toolcall_parse (chars "Action: Click 14") (chars "Click 14")
    (by decide)).1
  rw [h]
  decide

/-- C7: the parser is a total function (a Lean `def` defined on every
input), and whenever the last non-empty line of the stripped input does
not start with the literal marker `"Action: "` it returns the retry dict
whose diagnostic embeds the original input text verbatim after the fixed
message. -/
theorem C7_retry_on_missing_marker (text : List Char)
    (h : startsWithL actionMarker ((splitOnChar '\n' (pyStrip text)).getLastD []) = false) :
    parse text = { action := chars "retry", args := ArgsVal.str (retryMsg ++ text) } := by
  simp only [parse]
  rw [h]
  simp only [Bool.false_eq_true, if_false]

/-- C7 (witness). -/
theorem C7_witness :
    startsWithL actionMarker
      ((splitOnChar '\n' (pyStrip (chars "no marker here"))).getLastD []) = false ∧
    parse (chars "no marker here") =
      { action := chars "retry", args := ArgsVal.str (retryMsg ++ chars "no marker here") } :=
  ⟨by decide, C7_retry_on_missing_marker (chars "no marker here") (by decide)⟩

/-- C8: the scratchpad accumulator starts at step 1 with the fixed header
(so the text ends in "1. {observation}"), appends `"{n+1}. {observation}"`
when the previous text's last line begins with the integer `n` (step
numbers grow by exactly 1 per call), and fails when the last line does not
begin with a parsable integer. -/
theorem C8_scratchpad_steps :
    (∀ obs : List Char, ∃ t : List Char,
      update_scratchpad [] obs = some [t ++ (natChars 1 ++ chars ". " ++ obs)]) ∧
    (∀ (txt : List Char) (tl : List (List Char)) (obs : List Char) (n : Nat),
      leadingNat (lastAfterNewline txt) = some n →
      update_scratchpad (txt :: tl) obs =
        some [txt ++ chars "\n" ++ natChars (n + 1) ++ chars ". " ++ obs]) ∧
    (∀ (txt : List Char) (tl : List (List Char)) (obs : List Char),
      leadingNat (lastAfterNewline txt) = none →
      update_scratchpad (txt :: tl) obs = none) := by
  refine ⟨fun obs => ⟨scratchpadHeader ++ chars "\n", ?_⟩, fun txt tl obs n h => ?_, fun txt tl obs h => ?_⟩
  · simp [update_scratchpad, List.append_assoc]
  · simp [update_scratchpad, h]
  · simp [update_scratchpad, h]

/-- C8 (witness). -/
theorem C8_witness :
    (∃ t : List Char,
      update_scratchpad [] (chars "first obs") =
        some [t ++ (natChars 1 ++ chars ". " ++ chars "first obs")]) ∧
    leadingNat (lastAfterNewline (chars "Previous action observations:\n\n1. first obs")) = some 1 ∧
    update_scratchpad [chars "Previous action observations:\n\n1. first obs"] (chars "second obs") =
      some [chars "Previous action observations:\n\n1. first obs" ++ chars "\n" ++
        natChars 2 ++ chars ". " ++ chars "second obs"] ∧
    leadingNat (lastAfterNewline (chars "corrupt")) = none ∧
    update_scratchpad [chars "corrupt"] (chars "obs") = none :=
  ⟨C8_scratchpad_steps.1 (chars "first obs"),
   by decide,
   C8_scratchpad_steps.2.1 (chars "Previous action observations:\n\n1. first obs") []
     (chars "second obs") 1 (by decide),
   by decide,
   C8_scratchpad_steps.2.2 (chars "corrupt") [] (chars "obs") (by decide)⟩

/-- C9 (counterexample): a lookup of an expired session fails with 404
"Session expired" and schedules an asynchronous cleanup task, but the
record is NOT removed synchronously: immediately after the lookup
returns, the session is still present in the registry. -/
theorem C9_counterexample :
    let r := get_session
      [("s1", { session_id := "s1", last_accessed := 0, timeout_minutes := 1 })] 61 "s1"
    r.outcome = GetOutcome.httpError 404 "Session expired" ∧
    r.scheduled = ["s1"] ∧
    lookup r.sessions "s1" =
      some { session_id := "s1", last_accessed := 0, timeout_minutes := 1 } := by
  decide

/-- C9 (amended): a lookup of an expired session fails with `Expired`
(404 "Session expired") and schedules an asynchronous cleanup of exactly
that session; the registry is unchanged at the moment the lookup returns,
and the record is removed (resources released) only when the scheduled
cleanup task later runs. -/
theorem C9_amended_expired_lookup (sessions : Registry) (now : Int) (sid : String)
    (s : SessionInfo) (hfound : lookup sessions sid = some s)
    (hexp : is_expired now s = true) :
    (get_session sessions now sid).outcome = GetOutcome.httpError 404 "Session expired" ∧
    (get_session sessions now sid).sessions = sessions ∧
    (get_session sessions now sid).scheduled = [sid] ∧
    lookup (cleanup_session sessions sid) sid = none := by
  refine ⟨?_, ?_, ?_, ?_⟩
  · simp only [get_session, hfound, hexp, if_true]
  · simp only [get_session, hfound, hexp, if_true]
  · simp only [get_session, hfound, hexp, if_true]
  · simp only [cleanup_session, close_session, hfound]
    exact lookup_removeEntry_self sessions sid

/-- C9 (witness). -/
theorem C9_witness :
    lookup [("s1", { session_id := "s1", last_accessed := 0, timeout_minutes := 1 : SessionInfo })] "s1" =
      some { session_id := "s1", last_accessed := 0, timeout_minutes := 1 } ∧
    is_expired 61 { session_id := "s1", last_accessed := 0, timeout_minutes := 1 } = true ∧
    (get_session [("s1", { session_id := "s1", last_accessed := 0, timeout_minutes := 1 })] 61 "s1").outcome =
      GetOutcome.httpError 404 "Session expired" :=
  ⟨by decide, by decide,
    (C9_amended_expired_lookup
      [("s1", { session_id := "s1", last_accessed := 0, timeout_minutes := 1 })] 61 "s1"
      { session_id := "s1", last_accessed := 0, timeout_minutes := 1 }
      (by decide) (by decide)).1⟩

/-- C10: a lookup of a live session mutates only `last_accessed` (set to
the current time): the returned record and the stored record equal the old
record with just that field replaced, every other registry entry is
unchanged, and no cleanup is scheduled. -/
theorem C10_lookup_touches_only_last_accessed (sessions : Registry) (now : Int)
    (sid : String) (s : SessionInfo) (hfound : lookup sessions sid = some s)
    (hlive : is_expired now s = false) :
    (get_session sessions now sid).outcome = GetOutcome.ok { s with last_accessed := now } ∧
    lookup (get_session sessions now sid).sessions sid = some { s with last_accessed := now } ∧
    (∀ sid', sid' ≠ sid →
      lookup (get_session sessions now sid).sessions sid' = lookup sessions sid') ∧
    (get_session sessions now sid).scheduled = [] := by
  have h1 : lookup sessions sid ≠ none := by
    rw [hfound]; exact fun hc => Option.noConfusion hc
  refine ⟨?_, ?_, ?_, ?_⟩ <;>
    simp only [get_session, hfound, hlive, Bool.false_eq_true, if_false]
  · exact lookup_setEntry_self _ _ _ h1
  · intro sid' hne
    exact lookup_setEntry_other _ _ _ _ hne

/-- C10 (witness). -/
theorem C10_witness :
    lookup [("s1", { session_id := "s1", last_accessed := 0, timeout_minutes := 30 : SessionInfo })] "s1" =
      some { session_id := "s1", last_accessed := 0, timeout_minutes := 30 } ∧
    (get_session [("s1", { session_id := "s1", last_accessed := 0, timeout_minutes := 30 })] 5 "s1").outcome =
      GetOutcome.ok { session_id := "s1", last_accessed := 5, timeout_minutes := 30 } :=
  ⟨by decide,
    (C10_lookup_touches_only_last_accessed
      [("s1", { session_id := "s1", last_accessed := 0, timeout_minutes := 30 })] 5 "s1"
      { session_id := "s1", last_accessed := 0, timeout_minutes := 30 }
      (by decide) (by decide)).1⟩

end WebSearcher
